import Mathlib

/-!
Verification of the SOCKS proxy negotiation layer of this repository.

The wire traffic is modelled as lists of bytes (`List Nat`, each element a
value `< 256`). The two test proxy servers (`Socks5ProxyServer` and
`Socks4ProxyServer` in `test/test_socks.py`) are embedded directly from the
source: each is a function from the byte stream the client sends to the byte
stream the server answers together with the `socks_info` record the server
hands to its request handler. A `recv` that cannot be satisfied, a failed
`assert`, or an operation that raises in the Python code is modelled as the
whole run returning `none`.

The client side — `ProxyEndpointParser`, `AddressSpec` policy,
`Socks4Negotiator`, `Socks5Negotiator`, `SocksDialer` — lives in
`yt_dlp/socks.py` and the networking handlers, which are not part of this
source tree (the tree holds only their test suite); those definitions are
modelled from the specification and are marked `Modelled from the spec:` in
their doc comments.

Strings that travel on the wire (usernames, passwords, host names) are
encoded to bytes with UTF-8 (`String.utf8EncodeChar`); the Python servers
decode the received bytes back to `str` before comparing, and since UTF-8
encoding is injective, comparing the byte lists is equivalent.
IPv4 addresses held in `socks_info` are kept as their 4 raw bytes rather
than the dotted string `inet_ntoa` produces; the translation is bijective,
so equalities over them are unchanged.
-/

/-- Read exactly `n` bytes from the stream: the model of a blocking
`recv(n)` that is only well-defined when the peer has sent enough bytes.
Returns the bytes read and the remainder of the stream. -/
def recvn (n : Nat) (s : List Nat) : Option (List Nat × List Nat) :=
  if n ≤ s.length then some (s.take n, s.drop n) else none

/-- Model of `Socks4ProxyServer._read_until_null`: read single bytes until a
NUL byte arrives. If the stream holds no NUL the Python loop never
terminates, which the model folds into `none`. -/
def readUntilNull : List Nat → Option (List Nat × List Nat)
  | [] => none
  | b :: t =>
    if b = 0 then some ([], t)
    else (readUntilNull t).map (fun br => (b :: br.1, br.2))

/-- The `socks_info` dictionary built by `Socks5ProxyServer.handle`
(`test/test_socks.py` lines 89–106). Addresses are kept as raw byte lists. -/
structure Socks5Info where
  version : Nat
  auth_methods : List Nat
  command : Nat
  ipv4_address : Option (List Nat)
  domain_address : Option (List Nat)
  ipv6_address : Option (List Nat)
  port : Nat
  deriving Repr, DecidableEq

/-- Outcome of one server run: the bytes the server wrote back, and the
`socks_info` passed to the request handler when the handshake completed
(`none` when the server sent a rejection and closed the connection). -/
structure ServerRun (Info : Type) where
  output : List Nat
  info : Option Info
  deriving Repr, DecidableEq

/-- The CONNECT-request half of `Socks5ProxyServer.handle`
(`test/test_socks.py` lines 88–119): parse the request, record the
destination in `socks_info`, and answer with the fixed success reply
`5,0,0,1,127.0.0.1` followed by port `40000`. The `auth_methods` field is
filled in by the caller. `none` models the exception raised after
`close_request` on an unknown address type, or a short `recv`. -/
def socks5ServerConnect (s : List Nat) : Option (ServerRun Socks5Info) :=
  match recvn 4 s with
  | none => none
  | some (chdr, r1) =>
    match chdr with
    | [version, command, _rsv, address_type] =>
      let base : Socks5Info := ⟨version, [], command, none, none, none, 0⟩
      let addr? : Option (Socks5Info × List Nat) :=
        if address_type = 1 then
          (recvn 4 r1).map (fun ar => ({ base with ipv4_address := some ar.1 }, ar.2))
        else if address_type = 3 then
          match recvn 1 r1 with
          | some ([n], r2) =>
            (recvn n r2).map (fun ar => ({ base with domain_address := some ar.1 }, ar.2))
          | _ => none
        else if address_type = 4 then
          (recvn 16 r1).map (fun ar => ({ base with ipv6_address := some ar.1 }, ar.2))
        else none
      match addr? with
      | none => none
      | some (info, r2) =>
        match recvn 2 r2 with
        | none => none
        | some (pb, _) =>
          match pb with
          | [hi, lo] =>
            some ⟨[5, 0, 0, 1, 0x7f, 0, 0, 1, 0x9c, 0x40],
              some { info with port := hi * 256 + lo }⟩
          | _ => none
    | _ => none

/-- Embedding of `Socks5ProxyServer.handle` (`test/test_socks.py` lines
52–119). `auth` is the optional username/password pair the server was
configured with (as byte lists); `input` is the client's byte stream. The
outer `none` models a raised exception: a short `recv`, the
`assert version == 5` failing, or the `self.auth[0]` access when `auth` is
`None`. -/
def socks5ServerHandle (auth : Option (List Nat × List Nat))
    (input : List Nat) : Option (ServerRun Socks5Info) :=
  match recvn 2 input with
  | none => none
  | some (hdr, r1) =>
    match hdr with
    | [version, nmethods] =>
      if version ≠ 5 then none
      else
        match recvn nmethods r1 with
        | none => none
        | some (methods, r2) =>
          if auth.isSome ∧ 2 ∉ methods then
            some ⟨[5, 0xFF], none⟩
          else if 2 ∈ methods then
            match auth with
            | none => none
            | some (au, ap) =>
              match recvn 2 r2 with
              | none => none
              | some (ahdr, r3) =>
                match ahdr with
                | [_aver, ulen] =>
                  match recvn ulen r3 with
                  | none => none
                  | some (uname, r4) =>
                    match recvn 1 r4 with
                    | none => none
                    | some (plenb, r5) =>
                      match plenb with
                      | [plen] =>
                        match recvn plen r5 with
                        | none => none
                        | some (passwd, r6) =>
                          if uname = au ∧ passwd = ap then
                            ((socks5ServerConnect r6).map
                              (fun run => ⟨5 :: 2 :: 1 :: 0 :: run.output,
                                run.info.map (fun i => { i with auth_methods := methods })⟩))
                          else some ⟨[5, 2, 1, 1], none⟩
                      | _ => none
                | _ => none
          else if 0 ∈ methods then
            ((socks5ServerConnect r2).map
              (fun run => ⟨5 :: 0 :: run.output,
                run.info.map (fun i => { i with auth_methods := methods })⟩))
          else
            some ⟨[5, 0xFF], none⟩
    | _ => none

/-- The `socks_info` dictionary built by `Socks4ProxyServer.handle`
(`test/test_socks.py` lines 144–171). -/
structure Socks4Info where
  version : Nat
  command : Nat
  ipv4_address : Option (List Nat)
  port : Nat
  domain_address : Option (List Nat)
  deriving Repr, DecidableEq

/-- Embedding of `Socks4ProxyServer.handle` (`test/test_socks.py` lines
142–180). `userid` is the user-id the server expects (`self.userid or ''`,
as bytes). Reads 8 bytes `VN, CD, DSTPORT(2), DSTIP(4)`; a version other
than 4 closes the connection without output; `0 < DSTIP ≤ 0xFF` switches on
remote DNS; a user-id mismatch answers `0,93, port 0, 0.0.0.0` and closes;
otherwise the server answers `0,90, port 40000, 127.0.0.1`. -/
def socks4ServerHandle (userid : List Nat) (input : List Nat) :
    Option (ServerRun Socks4Info) :=
  match recvn 8 input with
  | none => none
  | some (hdr, r1) =>
    match hdr with
    | [version, command, p1, p2, i1, i2, i3, i4] =>
      if version ≠ 4 then some ⟨[], none⟩
      else
        let destIp := ((i1 * 256 + i2) * 256 + i3) * 256 + i4
        let useRemoteDns := 0 < destIp ∧ destIp ≤ 0xFF
        let info : Socks4Info :=
          ⟨4, command, if useRemoteDns then none else some [i1, i2, i3, i4],
            p1 * 256 + p2, none⟩
        match readUntilNull r1 with
        | none => none
        | some (uid, r2) =>
          if uid ≠ userid then some ⟨[0, 93, 0, 0, 0, 0, 0, 0], none⟩
          else if useRemoteDns then
            match readUntilNull r2 with
            | none => none
            | some (dom, _) =>
              some ⟨[0, 90, 0x9c, 0x40, 0x7f, 0, 0, 1],
                some { info with domain_address := some dom }⟩
          else
            some ⟨[0, 90, 0x9c, 0x40, 0x7f, 0, 0, 1], some info⟩
    | _ => none

/-- Modelled from the spec: the error taxonomy of §7 (the implementation in
`yt_dlp/socks.py` / the networking layer is not part of this source tree). -/
inductive ProxyErrorKind where
  | MalformedProxyURL
  | UnsupportedProxyScheme
  | UnsupportedAddressFamily
  | AddressResolutionRequired
  | NoAcceptableAuthMethod
  | ProxyAuthenticationFailed
  | ProxyProtocolError
  | ProxyTimeout
  | GeneralFailure
  | ConnectionNotAllowed
  | NetworkUnreachable
  | HostUnreachable
  | ConnectionRefused
  | TTLExpired
  | CommandNotSupported
  | AddressTypeNotSupported
  deriving Repr, DecidableEq

/-- Modelled from the spec: `ProxyError` of §3 — a kind plus the optional
raw status byte it was derived from. -/
structure ProxyError where
  kind : ProxyErrorKind
  rawStatus : Option Nat
  deriving Repr, DecidableEq

/-- Modelled from the spec: `AddressSpec` of §3, the tagged union of the
three destination representations. Domains are carried as their UTF-8
bytes. -/
inductive AddressSpec where
  | ipv4 (a b c d : Nat)
  | ipv6 (bytes : List Nat)
  | domain (bytes : List Nat)
  deriving Repr, DecidableEq

/-- Modelled from the spec: `ProxyReply` of §3 — the status code of the
final reply plus the advisory bound address/port. -/
structure ProxyReply where
  statusCode : Nat
  boundAddress : List Nat
  boundPort : Nat
  deriving Repr, DecidableEq

instance {ε α : Type} [DecidableEq ε] [DecidableEq α] : DecidableEq (Except ε α)
  | .ok a, .ok b => decidable_of_iff (a = b) (by simp)
  | .ok _, .error _ => isFalse (by simp)
  | .error _, .ok _ => isFalse (by simp)
  | .error a, .error b => decidable_of_iff (a = b) (by simp)

/-- Outcome of one dial attempt: the bytes the client sent, the terminal
result, and whether the underlying socket was closed (per §4.5 the dialer
closes it on every failure; on success it is handed back open as the
tunnel). -/
structure DialResult where
  sent : List Nat
  result : Except ProxyError ProxyReply
  socketClosed : Bool
  deriving Repr, DecidableEq

/-- UTF-8 bytes of a string, as `Nat`s. -/
def strBytes (s : String) : List Nat :=
  (s.data.flatMap String.utf8EncodeChar).map (·.toNat)

/-- Modelled from the spec: the SOCKS5 method list of §4.3 step 1 —
`{0x00}` without credentials, `{0x00, 0x02}` with. -/
def socks5AuthMethods (hasCreds : Bool) : List Nat :=
  if hasCreds then [0x00, 0x02] else [0x00]

/-- Modelled from the spec: the method-negotiation request
`VER=5, NMETHODS, METHODS[...]` of §4.3 step 1. -/
def socks5Greeting (hasCreds : Bool) : List Nat :=
  5 :: (socks5AuthMethods hasCreds).length :: socks5AuthMethods hasCreds

/-- Modelled from the spec: the RFC 1929 sub-negotiation request
`VER=1, ULEN, UNAME, PLEN, PASSWD` of §4.3 step 2. -/
def socks5AuthRequest (u p : List Nat) : List Nat :=
  1 :: u.length :: (u ++ p.length :: p)

/-- Modelled from the spec: the ATYP byte and address field of §4.3 step 3. -/
def atypField : AddressSpec → List Nat
  | .ipv4 a b c d => [1, a, b, c, d]
  | .ipv6 bs => 4 :: bs
  | .domain bs => 3 :: bs.length :: bs

/-- Modelled from the spec: the CONNECT request
`VER=5, CMD=1, RSV=0, ATYP, DST.ADDR, DST.PORT` of §4.3 step 3. -/
def socks5ConnectRequest (dest : AddressSpec) (destPort : Nat) : List Nat :=
  [5, 1, 0] ++ atypField dest ++ [destPort / 256, destPort % 256]

/-- Modelled from the spec: the §4.4 table mapping SOCKS5 REP codes 1–8 to
error kinds; other non-zero codes carry no finer classification than
`GeneralFailure`. -/
def socks5ErrorKindOf (rep : Nat) : ProxyErrorKind :=
  if rep = 1 then .GeneralFailure
  else if rep = 2 then .ConnectionNotAllowed
  else if rep = 3 then .NetworkUnreachable
  else if rep = 4 then .HostUnreachable
  else if rep = 5 then .ConnectionRefused
  else if rep = 6 then .TTLExpired
  else if rep = 7 then .CommandNotSupported
  else if rep = 8 then .AddressTypeNotSupported
  else .GeneralFailure

/-- Modelled from the spec: §4.3 step 4 — read the 4-byte reply header, the
address field sized per ATYP, then the 2-byte port; any short read is a
`ProxyProtocolError`, `REP≠0` maps through the §4.4 table carrying the raw
status. -/
def socks5ReadConnectReply (s : List Nat) : Except ProxyError ProxyReply :=
  match recvn 4 s with
  | some ([_ver, rep, _rsv, atyp], r1) =>
    let addr? : Option (List Nat × List Nat) :=
      if atyp = 1 then recvn 4 r1
      else if atyp = 3 then
        match recvn 1 r1 with
        | some ([n], r2) => recvn n r2
        | _ => none
      else if atyp = 4 then recvn 16 r1
      else none
    match addr? with
    | none => .error ⟨.ProxyProtocolError, none⟩
    | some (addr, r2) =>
      match recvn 2 r2 with
      | some ([hi, lo], _) =>
        if rep = 0 then .ok ⟨rep, addr, hi * 256 + lo⟩
        else .error ⟨socks5ErrorKindOf rep, some rep⟩
      | _ => .error ⟨.ProxyProtocolError, none⟩
  | _ => .error ⟨.ProxyProtocolError, none⟩

/-- Modelled from the spec: steps 3–4 of §4.3, entered with the bytes
already sent; appends the CONNECT request and parses the reply. On success
the socket stays open as the tunnel; on failure §4.5 closes it. -/
def socks5Connect (sentSoFar : List Nat) (dest : AddressSpec) (destPort : Nat)
    (s : List Nat) : DialResult :=
  let sent := sentSoFar ++ socks5ConnectRequest dest destPort
  match socks5ReadConnectReply s with
  | .error e => ⟨sent, .error e, true⟩
  | .ok r => ⟨sent, .ok r, false⟩

/-- Modelled from the spec: the full `Socks5Negotiator` state machine of
§4.3 over the server's reply stream `s`. `creds` are the endpoint's
credentials as byte lists; `METHOD=0xFF` fails with
`NoAcceptableAuthMethod`, `METHOD=0x02` runs the RFC 1929 sub-negotiation
(a non-zero status fails with `ProxyAuthenticationFailed` and closes the
connection), `METHOD=0x00` proceeds straight to CONNECT; any other method
(or one the client never offered) is a protocol error, and every short read
is a `ProxyProtocolError`. -/
def socks5Negotiate (creds : Option (List Nat × List Nat)) (dest : AddressSpec)
    (destPort : Nat) (s : List Nat) : DialResult :=
  let greeting := socks5Greeting creds.isSome
  match recvn 2 s with
  | some ([_ver, m], r1) =>
    if m = 0xFF then ⟨greeting, .error ⟨.NoAcceptableAuthMethod, none⟩, true⟩
    else if m = 2 then
      match creds with
      | some (u, p) =>
        let sent := greeting ++ socks5AuthRequest u p
        match recvn 2 r1 with
        | some ([_aver, status], r2) =>
          if status ≠ 0 then ⟨sent, .error ⟨.ProxyAuthenticationFailed, none⟩, true⟩
          else socks5Connect sent dest destPort r2
        | _ => ⟨sent, .error ⟨.ProxyProtocolError, none⟩, true⟩
      | none => ⟨greeting, .error ⟨.ProxyProtocolError, none⟩, true⟩
    else if m = 0 then socks5Connect greeting dest destPort r1
    else ⟨greeting, .error ⟨.ProxyProtocolError, none⟩, true⟩
  | _ => ⟨greeting, .error ⟨.ProxyProtocolError, none⟩, true⟩

/-- Modelled from the spec: §4.2 step 4 — read exactly 8 reply bytes
`VN, CD, DSTPORT(2), DSTIP(4)`; `CD=90` is the unique success, any other
value is a `GeneralFailure` carrying the raw status, and a short read is a
`ProxyProtocolError`. -/
def socks4ParseReply (s : List Nat) : Except ProxyError ProxyReply :=
  match recvn 8 s with
  | some ([_vn, cd, p1, p2, i1, i2, i3, i4], _) =>
    if cd = 90 then .ok ⟨cd, [i1, i2, i3, i4], p1 * 256 + p2⟩
    else .error ⟨.GeneralFailure, some cd⟩
  | _ => .error ⟨.ProxyProtocolError, none⟩

/-- Whether a dial attempt ended in failure — per §4.5 the dialer then
closes the socket. -/
def isFailure : Except ProxyError ProxyReply → Bool
  | .error _ => true
  | .ok _ => false

/-- Modelled from the spec: the `Socks4Negotiator` of §4.2. For a domain
destination under remote DNS (SOCKS4A) the request carries the placeholder
DSTIP `0.0.0.1` (the spec reserves `0.0.0.x`, `x ∈ 1..255`) and appends the
domain after the NUL-terminated user-id, itself NUL-terminated; an IPv4
destination is sent literally with no trailing domain field; an IPv6
destination fails fast with `UnsupportedAddressFamily` before sending any
bytes, and an unresolved domain without remote DNS fails with
`AddressResolutionRequired`. -/
def socks4Negotiate (remoteDns : Bool) (userid : List Nat) (dest : AddressSpec)
    (destPort : Nat) (s : List Nat) : DialResult :=
  match dest with
  | .ipv6 _ => ⟨[], .error ⟨.UnsupportedAddressFamily, none⟩, true⟩
  | .domain d =>
    if remoteDns then
      ⟨[4, 1, destPort / 256, destPort % 256, 0, 0, 0, 1] ++
          userid ++ [0] ++ d ++ [0],
        socks4ParseReply s, isFailure (socks4ParseReply s)⟩
    else ⟨[], .error ⟨.AddressResolutionRequired, none⟩, true⟩
  | .ipv4 a b c d =>
    ⟨[4, 1, destPort / 256, destPort % 256, a, b, c, d] ++ userid ++ [0],
      socks4ParseReply s, isFailure (socks4ParseReply s)⟩

/-- Modelled from the spec: the four scheme variants of §3. -/
inductive SocksVariant where
  | socks4
  | socks4a
  | socks5
  | socks5h
  deriving Repr, DecidableEq

/-- Modelled from the spec: which variants resolve the destination at the
proxy (§6: `...4a`/`...5h` = remote resolution). -/
def remoteDnsPolicy : SocksVariant → Bool
  | .socks4a => true
  | .socks5h => true
  | _ => false

/-- Modelled from the spec: `ProxyEndpoint` of §3, as produced by
`ProxyEndpointParser` from `scheme://[user[:pass]@]host:port`. A username
is present exactly when the URL's authority holds an `@`; a password is
present exactly when the userinfo holds a `:` (and may be empty). -/
structure ProxyEndpoint where
  variant : SocksVariant
  host : String
  port : Nat
  username : Option String
  password : Option String
  deriving Repr, DecidableEq

/-- Modelled from the spec: §3's invariant — credentials are present iff
the URL supplied both a username and a (possibly empty) password; §4.1
makes this the SOCKS5 auth-negotiation eligibility test. -/
def hasCredentials (ep : ProxyEndpoint) : Bool :=
  ep.username.isSome && ep.password.isSome

/-- Modelled from the spec: the SOCKS4 user-id field of §4.2 step 3 — the
URL username, or the empty string when none was given. -/
def socks4UserId (ep : ProxyEndpoint) : List Nat :=
  strBytes (ep.username.getD "")

/-- Parse a nonempty all-decimal-digit character list. -/
def parseDecimal (cs : List Char) : Option Nat :=
  if cs ≠ [] ∧ cs.all Char.isDigit then
    some (cs.foldl (fun n c => n * 10 + (c.toNat - 48)) 0)
  else none

/-- Modelled from the spec: recognition of a dotted IPv4 literal — four
dot-separated decimal components, each in `0..255`. -/
def parseIPv4 (host : String) : Option (Nat × Nat × Nat × Nat) :=
  match (host.toList.splitOn '.').mapM parseDecimal with
  | some [a, b, c, d] =>
    if a ≤ 255 ∧ b ≤ 255 ∧ c ≤ 255 ∧ d ≤ 255 then some (a, b, c, d) else none
  | _ => none

/-- Modelled from the spec: the `AddressSpec` policy of §3 — an IPv4
literal is used as-is; otherwise, a remote-DNS variant sends the name
untouched as a domain, and a local-resolution variant resolves it through
the environment's resolver `dns` (failing with `AddressResolutionRequired`
when it cannot). IPv6 literal destinations enter the negotiators directly
as `AddressSpec.ipv6`. -/
def resolveDest (variant : SocksVariant) (dns : String → Option (Nat × Nat × Nat × Nat))
    (host : String) : Except ProxyError AddressSpec :=
  match parseIPv4 host with
  | some (a, b, c, d) => .ok (.ipv4 a b c d)
  | none =>
    if remoteDnsPolicy variant then .ok (.domain (strBytes host))
    else
      match dns host with
      | some (a, b, c, d) => .ok (.ipv4 a b c d)
      | none => .error ⟨.AddressResolutionRequired, none⟩

/-- Split a character list at the first occurrence of `sep`. -/
def splitFirst (sep : Char) : List Char → Option (List Char × List Char)
  | [] => none
  | c :: t =>
    if c = sep then some ([], t)
    else (splitFirst sep t).map (fun ab => (c :: ab.1, ab.2))

/-- Split a character list at the last occurrence of `sep`. -/
def splitLast (sep : Char) (cs : List Char) : Option (List Char × List Char) :=
  (splitFirst sep cs.reverse).map (fun ab => (ab.2.reverse, ab.1.reverse))

/-- Modelled from the spec: the scheme table of §6. -/
def schemeVariant (scheme : List Char) : Option SocksVariant :=
  if scheme = "socks4".toList then some .socks4
  else if scheme = "socks4a".toList then some .socks4a
  else if scheme = "socks5".toList then some .socks5
  else if scheme = "socks5h".toList then some .socks5h
  else none

/-- Modelled from the spec: `ProxyEndpointParser` of §4.1 — parse
`scheme://[user[:pass]@]host:port`; an unknown scheme fails with
`UnsupportedProxyScheme`, a missing or empty host or port (or a port not in
`0..65535`) with `MalformedProxyURL`. The userinfo is the part before the
last `@`; its username is the part before its first `:` and its password
the part after, absent when there is no `:`. -/
def parseProxyURL (url : String) : Except ProxyError ProxyEndpoint :=
  match splitFirst ':' url.toList with
  | none => .error ⟨.MalformedProxyURL, none⟩
  | some (scheme, rest0) =>
    match rest0 with
    | '/' :: '/' :: rest =>
      match schemeVariant scheme with
      | none => .error ⟨.UnsupportedProxyScheme, none⟩
      | some variant =>
        let (userinfo?, hostport) :=
          match splitLast '@' rest with
          | some (ui, hp) => (some ui, hp)
          | none => (none, rest)
        let (username, password) :=
          match userinfo? with
          | none => (none, none)
          | some ui =>
            match splitFirst ':' ui with
            | some (u, p) => (some (String.mk u), some (String.mk p))
            | none => (some (String.mk ui), none)
        match splitLast ':' hostport with
        | none => .error ⟨.MalformedProxyURL, none⟩
        | some (h, pstr) =>
          if h = [] then .error ⟨.MalformedProxyURL, none⟩
          else
            match parseDecimal pstr with
            | none => .error ⟨.MalformedProxyURL, none⟩
            | some port =>
              if port < 65536 then
                .ok ⟨variant, String.mk h, port, username, password⟩
              else .error ⟨.MalformedProxyURL, none⟩
    | _ => .error ⟨.MalformedProxyURL, none⟩

/-- Modelled from the spec: the credentials handed to the SOCKS5 negotiator
by the dialer — the endpoint's username/password as UTF-8 bytes when §3's
credentials-present invariant holds, nothing otherwise. -/
def epCreds (ep : ProxyEndpoint) : Option (List Nat × List Nat) :=
  if hasCredentials ep then
    some (strBytes (ep.username.getD ""), strBytes (ep.password.getD ""))
  else none

/-- Modelled from the spec: `SocksDialer` of §4.5 — open TCP to the proxy's
`host:port` (`reach` abstracts the transport: whether that endpoint accepts
the connection in time; on failure the attempt surfaces `ProxyTimeout`
without any bytes sent), resolve the destination per the endpoint's policy,
then run the variant's negotiator over the server's reply stream `s`. -/
def socksDial (ep : ProxyEndpoint) (reach : String → Nat → Bool)
    (dns : String → Option (Nat × Nat × Nat × Nat)) (destHost : String)
    (destPort : Nat) (s : List Nat) : DialResult :=
  if reach ep.host ep.port then
    match resolveDest ep.variant dns destHost with
    | .error e => ⟨[], .error e, true⟩
    | .ok dest =>
      match ep.variant with
      | .socks5 | .socks5h =>
        socks5Negotiate (epCreds ep) dest destPort s
      | .socks4 | .socks4a =>
        socks4Negotiate (remoteDnsPolicy ep.variant) (socks4UserId ep) dest destPort s
  else ⟨[], .error ⟨.ProxyTimeout, none⟩, true⟩

@[simp] theorem recvn_zero (s : List Nat) : recvn 0 s = some ([], s) := by
  simp [recvn]

@[simp] theorem recvn_nil (n : Nat) : recvn (n + 1) ([] : List Nat) = none := by
  simp [recvn]

@[simp] theorem recvn_cons (n a : Nat) (t : List Nat) :
    recvn (n + 1) (a :: t) = (recvn n t).map (fun br => (a :: br.1, br.2)) := by
  by_cases h : n ≤ t.length
  · simp [recvn, h, Nat.succ_le_succ h]
  · simp [recvn, h, fun hh => h (Nat.le_of_succ_le_succ hh)]

theorem recvn_append (l r : List Nat) : recvn l.length (l ++ r) = some (l, r) := by
  simp [recvn, List.take_left, List.drop_left]

theorem readUntilNull_append (d r : List Nat) (hd : 0 ∉ d) :
    readUntilNull (d ++ 0 :: r) = some (d, r) := by
  induction d with
  | nil => simp [readUntilNull]
  | cons b t ih =>
    have hb : b ≠ 0 := fun hb => hd (hb ▸ List.mem_cons_self b t)
    have ht : 0 ∉ t := fun hm => hd (List.mem_cons_of_mem b hm)
    simp [readUntilNull, hb, ih ht]

/-- C2: for every SOCKS5 proxy endpoint configured without credentials the
method-negotiation request offers exactly the single method `{0x00}`; the
dial succeeds when the server advertises no-auth (composed here with the
source-embedded `Socks5ProxyServer`, which also records `auth_methods =
[0]` in its `socks_info`); and a `METHOD=0xFF` reply fails the dial with
`NoAcceptableAuthMethod`. -/
theorem socks5_no_credentials_methods_and_dial
    (ep : ProxyEndpoint) (a b c d destPort : Nat) (s : List Nat)
    (hep : hasCredentials ep = false) (hport : destPort < 65536) :
    epCreds ep = none ∧
    socks5AuthMethods false = [0x00] ∧
    socks5Greeting false = [5, 1, 0] ∧
    (socks5Negotiate (epCreds ep) (.ipv4 a b c d) destPort
        (5 :: 0xFF :: s)).result = .error ⟨.NoAcceptableAuthMethod, none⟩ ∧
    socks5ServerHandle none
        (socks5Greeting false ++ socks5ConnectRequest (.ipv4 a b c d) destPort) =
      some ⟨[5, 0, 5, 0, 0, 1, 127, 0, 0, 1, 156, 64],
        some ⟨5, [0], 1, some [a, b, c, d], none, none, destPort⟩⟩ ∧
    socks5Negotiate (epCreds ep) (.ipv4 a b c d) destPort
        [5, 0, 5, 0, 0, 1, 127, 0, 0, 1, 156, 64] =
      ⟨socks5Greeting false ++ socks5ConnectRequest (.ipv4 a b c d) destPort,
        .ok ⟨0, [127, 0, 0, 1], 40000⟩, false⟩ := by
  have hcreds : epCreds ep = none := by simp [epCreds, hep]
  refine ⟨hcreds, rfl, rfl, ?_, ?_, ?_⟩
  · simp [socks5Negotiate, hcreds, socks5Greeting, socks5AuthMethods]
  · simp [socks5ServerHandle, socks5ServerConnect, socks5Greeting,
      socks5AuthMethods, socks5ConnectRequest, atypField,
      Nat.div_add_mod' destPort 256]
  · simp [socks5Negotiate, hcreds, socks5Connect, socks5ReadConnectReply,
      socks5Greeting, socks5AuthMethods]

/-- Witness for C2 at a concrete endpoint, destination `1.1.1.1:80`. -/
theorem socks5_no_credentials_methods_and_dial_witness :
    hasCredentials ⟨.socks5, "127.0.0.1", 1080, none, none⟩ = false ∧
    (80 : Nat) < 65536 ∧
    (epCreds ⟨.socks5, "127.0.0.1", 1080, none, none⟩ = none ∧
      socks5AuthMethods false = [0x00] ∧
      socks5Greeting false = [5, 1, 0] ∧
      (socks5Negotiate (epCreds ⟨.socks5, "127.0.0.1", 1080, none, none⟩)
          (.ipv4 1 1 1 1) 80 (5 :: 0xFF :: [])).result =
        .error ⟨.NoAcceptableAuthMethod, none⟩ ∧
      socks5ServerHandle none
          (socks5Greeting false ++ socks5ConnectRequest (.ipv4 1 1 1 1) 80) =
        some ⟨[5, 0, 5, 0, 0, 1, 127, 0, 0, 1, 156, 64],
          some ⟨5, [0], 1, some [1, 1, 1, 1], none, none, 80⟩⟩ ∧
      socks5Negotiate (epCreds ⟨.socks5, "127.0.0.1", 1080, none, none⟩)
          (.ipv4 1 1 1 1) 80 [5, 0, 5, 0, 0, 1, 127, 0, 0, 1, 156, 64] =
        ⟨socks5Greeting false ++ socks5ConnectRequest (.ipv4 1 1 1 1) 80,
          .ok ⟨0, [127, 0, 0, 1], 40000⟩, false⟩) :=
  ⟨by decide, by decide,
    socks5_no_credentials_methods_and_dial
      ⟨.socks5, "127.0.0.1", 1080, none, none⟩ 1 1 1 1 80 []
      (by decide) (by decide)⟩

/-- C1: for every SOCKS5 proxy endpoint configured with credentials the
method-negotiation request advertises exactly `{0x00, 0x02}` in that
order; if the server selects method `0x02` and the username/password
sub-negotiation reply carries a non-zero status the dial fails with
`ProxyAuthenticationFailed` and the socket is closed; and against the
source-embedded `Socks5ProxyServer` configured with the same credentials
the dial completes with a CONNECT reply with `REP=0x00`. -/
theorem socks5_credentials_methods_auth_and_dial
    (ep : ProxyEndpoint) (u p : List Nat) (a b c d destPort st : Nat) (s : List Nat)
    (hcreds : epCreds ep = some (u, p)) (hst : st ≠ 0) (hport : destPort < 65536) :
    socks5AuthMethods true = [0x00, 0x02] ∧
    socks5Greeting true = [5, 2, 0, 2] ∧
    (socks5Negotiate (epCreds ep) (.ipv4 a b c d) destPort
        (5 :: 2 :: 1 :: st :: s)).result =
      .error ⟨.ProxyAuthenticationFailed, none⟩ ∧
    (socks5Negotiate (epCreds ep) (.ipv4 a b c d) destPort
        (5 :: 2 :: 1 :: st :: s)).socketClosed = true ∧
    socks5ServerHandle (some (u, p))
        (socks5Greeting true ++ socks5AuthRequest u p ++
          socks5ConnectRequest (.ipv4 a b c d) destPort) =
      some ⟨[5, 2, 1, 0, 5, 0, 0, 1, 127, 0, 0, 1, 156, 64],
        some ⟨5, [0, 2], 1, some [a, b, c, d], none, none, destPort⟩⟩ ∧
    socks5Negotiate (epCreds ep) (.ipv4 a b c d) destPort
        [5, 2, 1, 0, 5, 0, 0, 1, 127, 0, 0, 1, 156, 64] =
      ⟨socks5Greeting true ++ socks5AuthRequest u p ++
          socks5ConnectRequest (.ipv4 a b c d) destPort,
        .ok ⟨0, [127, 0, 0, 1], 40000⟩, false⟩ := by
  have hsome : (epCreds ep).isSome = true := by simp [hcreds]
  refine ⟨rfl, rfl, ?_, ?_, ?_, ?_⟩
  · simp [socks5Negotiate, hcreds, hst, socks5Greeting, socks5AuthMethods]
  · simp [socks5Negotiate, hcreds, hst, socks5Greeting, socks5AuthMethods]
  · simp [socks5ServerHandle, socks5ServerConnect, socks5Greeting,
      socks5AuthMethods, socks5AuthRequest, socks5ConnectRequest, atypField,
      recvn_append, Nat.div_add_mod' destPort 256]
  · simp [socks5Negotiate, hcreds, socks5Connect, socks5ReadConnectReply,
      socks5Greeting, socks5AuthMethods, List.append_assoc]

/-- Witness for C1 at the concrete endpoint of the test suite:
credentials `test`/`testpass`, destination `1.1.1.1:80`, rejected status
byte `1`. -/
theorem socks5_credentials_methods_auth_and_dial_witness :
    epCreds ⟨.socks5, "127.0.0.1", 1080, some "test", some "testpass"⟩ =
      some ([116, 101, 115, 116], [116, 101, 115, 116, 112, 97, 115, 115]) ∧
    (1 : Nat) ≠ 0 ∧ (80 : Nat) < 65536 ∧
    (socks5AuthMethods true = [0x00, 0x02] ∧
      socks5Greeting true = [5, 2, 0, 2] ∧
      (socks5Negotiate
          (epCreds ⟨.socks5, "127.0.0.1", 1080, some "test", some "testpass"⟩)
          (.ipv4 1 1 1 1) 80 (5 :: 2 :: 1 :: 1 :: [])).result =
        .error ⟨.ProxyAuthenticationFailed, none⟩ ∧
      (socks5Negotiate
          (epCreds ⟨.socks5, "127.0.0.1", 1080, some "test", some "testpass"⟩)
          (.ipv4 1 1 1 1) 80 (5 :: 2 :: 1 :: 1 :: [])).socketClosed = true ∧
      socks5ServerHandle
          (some ([116, 101, 115, 116], [116, 101, 115, 116, 112, 97, 115, 115]))
          (socks5Greeting true ++
            socks5AuthRequest [116, 101, 115, 116]
              [116, 101, 115, 116, 112, 97, 115, 115] ++
            socks5ConnectRequest (.ipv4 1 1 1 1) 80) =
        some ⟨[5, 2, 1, 0, 5, 0, 0, 1, 127, 0, 0, 1, 156, 64],
          some ⟨5, [0, 2], 1, some [1, 1, 1, 1], none, none, 80⟩⟩ ∧
      socks5Negotiate
          (epCreds ⟨.socks5, "127.0.0.1", 1080, some "test", some "testpass"⟩)
          (.ipv4 1 1 1 1) 80 [5, 2, 1, 0, 5, 0, 0, 1, 127, 0, 0, 1, 156, 64] =
        ⟨socks5Greeting true ++
            socks5AuthRequest [116, 101, 115, 116]
              [116, 101, 115, 116, 112, 97, 115, 115] ++
            socks5ConnectRequest (.ipv4 1 1 1 1) 80,
          .ok ⟨0, [127, 0, 0, 1], 40000⟩, false⟩) :=
  ⟨by decide, by decide, by decide,
    socks5_credentials_methods_auth_and_dial
      ⟨.socks5, "127.0.0.1", 1080, some "test", some "testpass"⟩
      [116, 101, 115, 116] [116, 101, 115, 116, 112, 97, 115, 115]
      1 1 1 1 80 1 [] (by decide) (by decide) (by decide)⟩

/-- C3: under `socks4://` and `socks5://` a domain destination is resolved
locally, so the SOCKS5 CONNECT carries `ATYP=0x01` with the resolved IPv4
bytes; under `socks5h://` a non-IP host name is sent untouched as
`ATYP=0x03` raw domain bytes for any resolver whatsoever (`dns2` is
arbitrary and unused), which the source-embedded `Socks5ProxyServer`
records as `domain_address`; and a destination that is already an IPv4
literal is sent in literal form. -/
theorem address_resolution_policy
    (h ipHost : String) (dns dns2 : String → Option (Nat × Nat × Nat × Nat))
    (a b c d e f g k destPort : Nat)
    (hnonip : parseIPv4 h = none) (hdns : dns h = some (a, b, c, d))
    (hip : parseIPv4 ipHost = some (e, f, g, k)) :
    resolveDest .socks5 dns h = .ok (.ipv4 a b c d) ∧
    resolveDest .socks4 dns h = .ok (.ipv4 a b c d) ∧
    atypField (.ipv4 a b c d) = [0x01, a, b, c, d] ∧
    resolveDest .socks5h dns2 h = .ok (.domain (strBytes h)) ∧
    atypField (.domain (strBytes h)) = 0x03 :: (strBytes h).length :: strBytes h ∧
    resolveDest .socks5h dns2 ipHost = .ok (.ipv4 e f g k) ∧
    socks5ServerHandle none
        (socks5Greeting false ++
          socks5ConnectRequest (.domain (strBytes h)) destPort) =
      some ⟨[5, 0, 5, 0, 0, 1, 127, 0, 0, 1, 156, 64],
        some ⟨5, [0], 1, none, some (strBytes h), none, destPort⟩⟩ := by
  refine ⟨?_, ?_, rfl, ?_, rfl, ?_, ?_⟩
  · simp [resolveDest, hnonip, hdns, remoteDnsPolicy]
  · simp [resolveDest, hnonip, hdns, remoteDnsPolicy]
  · simp [resolveDest, hnonip, remoteDnsPolicy]
  · simp [resolveDest, hip, remoteDnsPolicy]
  · simp [socks5ServerHandle, socks5ServerConnect, socks5Greeting,
      socks5AuthMethods, socks5ConnectRequest, atypField, recvn_append,
      Nat.div_add_mod' destPort 256]

/-- Witness for C3: destination `localhost` under a resolver mapping it to
`127.0.0.1`, IP-literal destination `127.0.0.1`, port `9999`. -/
theorem address_resolution_policy_witness :
    parseIPv4 "localhost" = none ∧
    (fun s => if s = "localhost" then some ((127 : Nat), (0 : Nat), (0 : Nat), (1 : Nat)) else none) "localhost" = some (127, 0, 0, 1) ∧
    parseIPv4 "127.0.0.1" = some (127, 0, 0, 1) ∧
    (resolveDest .socks5
        (fun s => if s = "localhost" then some (127, 0, 0, 1) else none)
        "localhost" = .ok (.ipv4 127 0 0 1) ∧
      resolveDest .socks4
        (fun s => if s = "localhost" then some (127, 0, 0, 1) else none)
        "localhost" = .ok (.ipv4 127 0 0 1) ∧
      atypField (.ipv4 127 0 0 1) = [0x01, 127, 0, 0, 1] ∧
      resolveDest .socks5h (fun _ => none) "localhost" =
        .ok (.domain (strBytes "localhost")) ∧
      atypField (.domain (strBytes "localhost")) =
        0x03 :: (strBytes "localhost").length :: strBytes "localhost" ∧
      resolveDest .socks5h (fun _ => none) "127.0.0.1" = .ok (.ipv4 127 0 0 1) ∧
      socks5ServerHandle none
          (socks5Greeting false ++
            socks5ConnectRequest (.domain (strBytes "localhost")) 9999) =
        some ⟨[5, 0, 5, 0, 0, 1, 127, 0, 0, 1, 156, 64],
          some ⟨5, [0], 1, none, some (strBytes "localhost"), none, 9999⟩⟩) :=
  ⟨by decide, by decide, by decide,
    address_resolution_policy "localhost" "127.0.0.1"
      (fun s => if s = "localhost" then some (127, 0, 0, 1) else none)
      (fun _ => none) 127 0 0 1 127 0 0 1 9999
      (by decide) (by decide) (by decide)⟩

/-- C4: a `socks4a://` dial with a domain destination sends a request whose
DSTIP field is the `0.0.0.x` placeholder with low byte `1 ∈ 1..255`, the
user-id and the domain name following it, each NUL-terminated — which the
source-embedded `Socks4ProxyServer` decodes back into exactly that domain —
while a `socks4://` dial with an IPv4 destination sends no trailing domain
field. -/
theorem socks4a_domain_request_framing
    (u dom : List Nat) (a b c d destPort : Nat) (s : List Nat)
    (hu : 0 ∉ u) (hdom : 0 ∉ dom) (hport : destPort < 65536) :
    (socks4Negotiate true u (.domain dom) destPort s).sent =
      [4, 1, destPort / 256, destPort % 256, 0, 0, 0, 1] ++
        u ++ [0] ++ dom ++ [0] ∧
    (socks4Negotiate true u (.domain dom) destPort s).sent.getD 7 0 = 1 ∧
    (0 < (1 : Nat) ∧ (1 : Nat) ≤ 255) ∧
    (socks4Negotiate (remoteDnsPolicy .socks4) u (.ipv4 a b c d) destPort s).sent =
      [4, 1, destPort / 256, destPort % 256, a, b, c, d] ++ u ++ [0] ∧
    socks4ServerHandle u
        ((socks4Negotiate true u (.domain dom) destPort s).sent) =
      some ⟨[0, 90, 156, 64, 127, 0, 0, 1],
        some ⟨4, 1, none, destPort, some dom⟩⟩ := by
  refine ⟨?_, ?_, by decide, ?_, ?_⟩
  · simp [socks4Negotiate]
  · simp [socks4Negotiate, List.getD]
  · simp [socks4Negotiate, remoteDnsPolicy]
  · simp [socks4Negotiate, socks4ServerHandle,
      readUntilNull_append u (dom ++ [0]) hu, readUntilNull_append dom [] hdom,
      Nat.div_add_mod' destPort 256]

/-- Witness for C4: empty user-id, domain `localhost`, port `80`. -/
theorem socks4a_domain_request_framing_witness :
    (0 : Nat) ∉ ([] : List Nat) ∧
    (0 : Nat) ∉ [108, 111, 99, 97, 108, 104, 111, 115, 116] ∧
    (80 : Nat) < 65536 ∧
    ((socks4Negotiate true [] (.domain [108, 111, 99, 97, 108, 104, 111, 115, 116]) 80 []).sent =
        [4, 1, 80 / 256, 80 % 256, 0, 0, 0, 1] ++
          [] ++ [0] ++ [108, 111, 99, 97, 108, 104, 111, 115, 116] ++ [0] ∧
      (socks4Negotiate true [] (.domain [108, 111, 99, 97, 108, 104, 111, 115, 116]) 80 []).sent.getD 7 0 = 1 ∧
      (0 < (1 : Nat) ∧ (1 : Nat) ≤ 255) ∧
      (socks4Negotiate (remoteDnsPolicy .socks4) [] (.ipv4 127 0 0 1) 80 []).sent =
        [4, 1, 80 / 256, 80 % 256, 127, 0, 0, 1] ++ [] ++ [0] ∧
      socks4ServerHandle []
          ((socks4Negotiate true [] (.domain [108, 111, 99, 97, 108, 104, 111, 115, 116]) 80 []).sent) =
        some ⟨[0, 90, 156, 64, 127, 0, 0, 1],
          some ⟨4, 1, none, 80, some [108, 111, 99, 97, 108, 104, 111, 115, 116]⟩⟩) :=
  ⟨by decide, by decide, by decide,
    socks4a_domain_request_framing [] [108, 111, 99, 97, 108, 104, 111, 115, 116]
      127 0 0 1 80 [] (by decide) (by decide) (by decide)⟩

/-- C7: the SOCKS4 negotiator reads exactly 8 reply bytes (anything after
them does not influence the result), `CD=90` is the unique success code,
any other CD yields a `GeneralFailure` carrying the raw status byte — and,
composed with the source-embedded `Socks4ProxyServer`, a wrong user-id
against an auth-required proxy draws the `CD=93` reply, which the
negotiator maps to `GeneralFailure` with raw status `93`. -/
theorem socks4_reply_status_mapping
    (vn cd p1 p2 i1 i2 i3 i4 : Nat) (rest : List Nat)
    (u su : List Nat) (a b c d destPort : Nat) (s : List Nat)
    (hcd : cd ≠ 90) (hu : 0 ∉ u) (hne : u ≠ su) :
    recvn 8 (vn :: cd :: p1 :: p2 :: i1 :: i2 :: i3 :: i4 :: rest) =
      some ([vn, cd, p1, p2, i1, i2, i3, i4], rest) ∧
    socks4ParseReply (vn :: cd :: p1 :: p2 :: i1 :: i2 :: i3 :: i4 :: rest) =
      socks4ParseReply [vn, cd, p1, p2, i1, i2, i3, i4] ∧
    socks4ParseReply (vn :: 90 :: p1 :: p2 :: i1 :: i2 :: i3 :: i4 :: rest) =
      .ok ⟨90, [i1, i2, i3, i4], p1 * 256 + p2⟩ ∧
    socks4ParseReply (vn :: cd :: p1 :: p2 :: i1 :: i2 :: i3 :: i4 :: rest) =
      .error ⟨.GeneralFailure, some cd⟩ ∧
    socks4ServerHandle su
        ((socks4Negotiate false u (.ipv4 a b c d) destPort s).sent) =
      some ⟨[0, 93, 0, 0, 0, 0, 0, 0], none⟩ ∧
    socks4Negotiate false u (.ipv4 a b c d) destPort [0, 93, 0, 0, 0, 0, 0, 0] =
      ⟨[4, 1, destPort / 256, destPort % 256, a, b, c, d] ++ u ++ [0],
        .error ⟨.GeneralFailure, some 93⟩, true⟩ := by
  refine ⟨?_, ?_, ?_, ?_, ?_, ?_⟩
  · simp [recvn]
  · simp [socks4ParseReply]
  · simp [socks4ParseReply]
  · simp [socks4ParseReply, hcd]
  · simp [socks4Negotiate, socks4ServerHandle,
      readUntilNull_append u [] hu, hne]
  · simp [socks4Negotiate, socks4ParseReply, isFailure]

/-- Witness for C7: reply `0,93,...` with trailing garbage, client
user-id `other` against a server expecting `user`, destination
`127.0.0.1:80`. -/
theorem socks4_reply_status_mapping_witness :
    (93 : Nat) ≠ 90 ∧
    (0 : Nat) ∉ [111, 116, 104, 101, 114] ∧
    [111, 116, 104, 101, 114] ≠ [117, 115, 101, 114] ∧
    (recvn 8 (0 :: 93 :: 0 :: 0 :: 0 :: 0 :: 0 :: 0 :: [7, 7]) =
        some ([0, 93, 0, 0, 0, 0, 0, 0], [7, 7]) ∧
      socks4ParseReply (0 :: 93 :: 0 :: 0 :: 0 :: 0 :: 0 :: 0 :: [7, 7]) =
        socks4ParseReply [0, 93, 0, 0, 0, 0, 0, 0] ∧
      socks4ParseReply (0 :: 90 :: 0 :: 0 :: 0 :: 0 :: 0 :: 0 :: [7, 7]) =
        .ok ⟨90, [0, 0, 0, 0], 0 * 256 + 0⟩ ∧
      socks4ParseReply (0 :: 93 :: 0 :: 0 :: 0 :: 0 :: 0 :: 0 :: [7, 7]) =
        .error ⟨.GeneralFailure, some 93⟩ ∧
      socks4ServerHandle [117, 115, 101, 114]
          ((socks4Negotiate false [111, 116, 104, 101, 114]
              (.ipv4 127 0 0 1) 80 []).sent) =
        some ⟨[0, 93, 0, 0, 0, 0, 0, 0], none⟩ ∧
      socks4Negotiate false [111, 116, 104, 101, 114] (.ipv4 127 0 0 1) 80
          [0, 93, 0, 0, 0, 0, 0, 0] =
        ⟨[4, 1, 80 / 256, 80 % 256, 127, 0, 0, 1] ++
            [111, 116, 104, 101, 114] ++ [0],
          .error ⟨.GeneralFailure, some 93⟩, true⟩) :=
  ⟨by decide, by decide, by decide,
    socks4_reply_status_mapping 0 93 0 0 0 0 0 0 [7, 7]
      [111, 116, 104, 101, 114] [117, 115, 101, 114] 127 0 0 1 80 []
      (by decide) (by decide) (by decide)⟩

theorem recvn_short (n : Nat) (s : List Nat) (h : s.length < n) :
    recvn n s = none := by
  unfold recvn
  rw [if_neg (Nat.not_le.mpr h)]

/-- C8: whenever the proxy delivers fewer bytes than the step requires the
dial fails with `ProxyProtocolError` and the socket is closed — at the
SOCKS5 method reply, the auth sub-negotiation reply, the CONNECT reply
header (in particular the claim's truncated 1-byte reply), the CONNECT
bound address, the CONNECT bound port, and the 8-byte SOCKS4 reply — never
an error kind reserved for explicit rejection statuses. -/
theorem truncated_replies_protocol_error
    (creds : Option (List Nat × List Nat)) (u p : List Nat)
    (dest : AddressSpec) (destPort a b c d : Nat)
    (t1 t2 t3 t4 t5 t6 : List Nat)
    (h1 : t1.length < 2) (h2 : t2.length < 2) (h3 : t3.length < 4)
    (h4 : t4.length < 4) (h5 : t5.length < 2) (h6 : t6.length < 8) :
    (socks5Negotiate creds dest destPort t1).result =
      .error ⟨.ProxyProtocolError, none⟩ ∧
    (socks5Negotiate creds dest destPort t1).socketClosed = true ∧
    (socks5Negotiate (some (u, p)) dest destPort (5 :: 2 :: t2)).result =
      .error ⟨.ProxyProtocolError, none⟩ ∧
    (socks5Negotiate creds dest destPort (5 :: 0 :: t3)).result =
      .error ⟨.ProxyProtocolError, none⟩ ∧
    (socks5Negotiate creds dest destPort
        (5 :: 0 :: 5 :: 0 :: 0 :: 1 :: t4)).result =
      .error ⟨.ProxyProtocolError, none⟩ ∧
    (socks5Negotiate creds dest destPort
        (5 :: 0 :: 5 :: 0 :: 0 :: 1 :: a :: b :: c :: d :: t5)).result =
      .error ⟨.ProxyProtocolError, none⟩ ∧
    socks4ParseReply t6 = .error ⟨.ProxyProtocolError, none⟩ := by
  refine ⟨?_, ?_, ?_, ?_, ?_, ?_, ?_⟩
  · simp [socks5Negotiate, recvn_short 2 t1 h1]
  · simp [socks5Negotiate, recvn_short 2 t1 h1]
  · simp [socks5Negotiate, recvn_short 2 t2 h2]
  · simp [socks5Negotiate, socks5Connect, socks5ReadConnectReply,
      recvn_short 4 t3 h3]
  · simp [socks5Negotiate, socks5Connect, socks5ReadConnectReply,
      recvn_short 4 t4 h4]
  · simp [socks5Negotiate, socks5Connect, socks5ReadConnectReply,
      recvn_short 2 t5 h5]
  · simp [socks4ParseReply, recvn_short 8 t6 h6]

/-- Witness for C8: the claim's concrete scenario — a single-byte reply
at every truncation point (`[5]`, or nothing at all downstream). -/
theorem truncated_replies_protocol_error_witness :
    ([5] : List Nat).length < 2 ∧ ([] : List Nat).length < 2 ∧
    ([5] : List Nat).length < 4 ∧ ([] : List Nat).length < 4 ∧
    ([] : List Nat).length < 2 ∧ ([5] : List Nat).length < 8 ∧
    ((socks5Negotiate none (.ipv4 1 1 1 1) 80 [5]).result =
        .error ⟨.ProxyProtocolError, none⟩ ∧
      (socks5Negotiate none (.ipv4 1 1 1 1) 80 [5]).socketClosed = true ∧
      (socks5Negotiate (some ([7], [8])) (.ipv4 1 1 1 1) 80
          (5 :: 2 :: [])).result = .error ⟨.ProxyProtocolError, none⟩ ∧
      (socks5Negotiate none (.ipv4 1 1 1 1) 80 (5 :: 0 :: [5])).result =
        .error ⟨.ProxyProtocolError, none⟩ ∧
      (socks5Negotiate none (.ipv4 1 1 1 1) 80
          (5 :: 0 :: 5 :: 0 :: 0 :: 1 :: [])).result =
        .error ⟨.ProxyProtocolError, none⟩ ∧
      (socks5Negotiate none (.ipv4 1 1 1 1) 80
          (5 :: 0 :: 5 :: 0 :: 0 :: 1 :: 127 :: 0 :: 0 :: 1 :: [])).result =
        .error ⟨.ProxyProtocolError, none⟩ ∧
      socks4ParseReply [5] = .error ⟨.ProxyProtocolError, none⟩) :=
  ⟨by decide, by decide, by decide, by decide, by decide, by decide,
    truncated_replies_protocol_error none [7] [8] (.ipv4 1 1 1 1) 80 127 0 0 1
      [5] [] [5] [] [] [5]
      (by decide) (by decide) (by decide) (by decide) (by decide) (by decide)⟩

/-- C9: `socks4://user:@host:port` parses to an endpoint carrying username
`user` with an empty — but present — password, and `socks4://@host:port`
to one carrying an empty username and no password; both are distinct from
the credential-less endpoint, both dial a SOCKS4 proxy successfully
(composed with the source-embedded `Socks4ProxyServer` expecting user-ids
`user` and `''` respectively), the username is sent as the SOCKS4 user-id
field, and under SOCKS5 the present-username/empty-password endpoint
counts as having credentials for auth-method eligibility while the bare
endpoint does not. -/
theorem proxy_url_empty_password_parsing :
    parseProxyURL "socks4://user:@127.0.0.1:1080" =
      .ok ⟨.socks4, "127.0.0.1", 1080, some "user", some ""⟩ ∧
    parseProxyURL "socks4://@127.0.0.1:1080" =
      .ok ⟨.socks4, "127.0.0.1", 1080, some "", none⟩ ∧
    parseProxyURL "socks4://127.0.0.1:1080" =
      .ok ⟨.socks4, "127.0.0.1", 1080, none, none⟩ ∧
    (some "user" : Option String) ≠ none ∧
    socks4UserId ⟨.socks4, "127.0.0.1", 1080, some "user", some ""⟩ =
      [117, 115, 101, 114] ∧
    socks4UserId ⟨.socks4, "127.0.0.1", 1080, some "", none⟩ = [] ∧
    socks4ServerHandle [117, 115, 101, 114]
        ((socks4Negotiate false
            (socks4UserId ⟨.socks4, "127.0.0.1", 1080, some "user", some ""⟩)
            (.ipv4 127 0 0 1) 80 []).sent) =
      some ⟨[0, 90, 156, 64, 127, 0, 0, 1],
        some ⟨4, 1, some [127, 0, 0, 1], 80, none⟩⟩ ∧
    socks4Negotiate false
        (socks4UserId ⟨.socks4, "127.0.0.1", 1080, some "user", some ""⟩)
        (.ipv4 127 0 0 1) 80 [0, 90, 156, 64, 127, 0, 0, 1] =
      ⟨[4, 1, 0, 80, 127, 0, 0, 1, 117, 115, 101, 114, 0],
        .ok ⟨90, [127, 0, 0, 1], 40000⟩, false⟩ ∧
    socks4ServerHandle []
        ((socks4Negotiate false
            (socks4UserId ⟨.socks4, "127.0.0.1", 1080, some "", none⟩)
            (.ipv4 127 0 0 1) 80 []).sent) =
      some ⟨[0, 90, 156, 64, 127, 0, 0, 1],
        some ⟨4, 1, some [127, 0, 0, 1], 80, none⟩⟩ ∧
    socks4Negotiate false
        (socks4UserId ⟨.socks4, "127.0.0.1", 1080, some "", none⟩)
        (.ipv4 127 0 0 1) 80 [0, 90, 156, 64, 127, 0, 0, 1] =
      ⟨[4, 1, 0, 80, 127, 0, 0, 1, 0],
        .ok ⟨90, [127, 0, 0, 1], 40000⟩, false⟩ ∧
    hasCredentials ⟨.socks5, "127.0.0.1", 1080, some "user", some ""⟩ = true ∧
    epCreds ⟨.socks5, "127.0.0.1", 1080, some "user", some ""⟩ =
      some ([117, 115, 101, 114], []) ∧
    socks5AuthMethods
        (hasCredentials ⟨.socks5, "127.0.0.1", 1080, some "user", some ""⟩) =
      [0x00, 0x02] ∧
    hasCredentials ⟨.socks5, "127.0.0.1", 1080, none, none⟩ = false ∧
    hasCredentials ⟨.socks5, "127.0.0.1", 1080, some "", none⟩ = false := by
  decide

/-- C10: a proxy endpoint whose host is a domain name is accepted —
`socks5://localhost:1080` parses, the dialer's outcome with host
`localhost` equals its outcome with host `127.0.0.1` byte for byte (the
transport resolves and connects to the proxy host; negotiation never
depends on it), and against the source-embedded no-auth
`Socks5ProxyServer` the dial through the domain-named proxy succeeds. -/
theorem domain_named_proxy_host
    (reach : String → Nat → Bool) (dns : String → Option (Nat × Nat × Nat × Nat))
    (port destPort a b c d : Nat) (s : List Nat) (destHost : String)
    (hr1 : reach "localhost" port = true) (hr2 : reach "127.0.0.1" port = true)
    (hdest : parseIPv4 destHost = some (a, b, c, d))
    (hport : destPort < 65536) :
    parseProxyURL "socks5://localhost:1080" =
      .ok ⟨.socks5, "localhost", 1080, none, none⟩ ∧
    socksDial ⟨.socks5, "localhost", port, none, none⟩ reach dns
        destHost destPort s =
      socksDial ⟨.socks5, "127.0.0.1", port, none, none⟩ reach dns
        destHost destPort s ∧
    socksDial ⟨.socks5, "localhost", port, none, none⟩ reach dns
        destHost destPort [5, 0, 5, 0, 0, 1, 127, 0, 0, 1, 156, 64] =
      ⟨socks5Greeting false ++ socks5ConnectRequest (.ipv4 a b c d) destPort,
        .ok ⟨0, [127, 0, 0, 1], 40000⟩, false⟩ ∧
    socks5ServerHandle none
        (socks5Greeting false ++ socks5ConnectRequest (.ipv4 a b c d) destPort) =
      some ⟨[5, 0, 5, 0, 0, 1, 127, 0, 0, 1, 156, 64],
        some ⟨5, [0], 1, some [a, b, c, d], none, none, destPort⟩⟩ := by
  have hcreds : epCreds ⟨.socks5, "localhost", port, none, none⟩ = none := by
    simp [epCreds, hasCredentials]
  refine ⟨by decide, ?_, ?_, ?_⟩
  · simp [socksDial, hr1, hr2, epCreds, hasCredentials]
  · simp [socksDial, hr1, resolveDest, hdest, hcreds, socks5Negotiate,
      socks5Connect, socks5ReadConnectReply, socks5Greeting, socks5AuthMethods]
  · simp [socks5ServerHandle, socks5ServerConnect, socks5Greeting,
      socks5AuthMethods, socks5ConnectRequest, atypField,
      Nat.div_add_mod' destPort 256]

/-- Witness for C10: an always-reachable transport, destination
`1.1.1.1:80`. -/
theorem domain_named_proxy_host_witness :
    (fun (_ : String) (_ : Nat) => true) "localhost" 1080 = true ∧
    (fun (_ : String) (_ : Nat) => true) "127.0.0.1" 1080 = true ∧
    parseIPv4 "1.1.1.1" = some (1, 1, 1, 1) ∧ (80 : Nat) < 65536 ∧
    (parseProxyURL "socks5://localhost:1080" =
        .ok ⟨.socks5, "localhost", 1080, none, none⟩ ∧
      socksDial ⟨.socks5, "localhost", 1080, none, none⟩
          (fun _ _ => true) (fun _ => none) "1.1.1.1" 80 [] =
        socksDial ⟨.socks5, "127.0.0.1", 1080, none, none⟩
          (fun _ _ => true) (fun _ => none) "1.1.1.1" 80 [] ∧
      socksDial ⟨.socks5, "localhost", 1080, none, none⟩
          (fun _ _ => true) (fun _ => none) "1.1.1.1" 80
          [5, 0, 5, 0, 0, 1, 127, 0, 0, 1, 156, 64] =
        ⟨socks5Greeting false ++ socks5ConnectRequest (.ipv4 1 1 1 1) 80,
          .ok ⟨0, [127, 0, 0, 1], 40000⟩, false⟩ ∧
      socks5ServerHandle none
          (socks5Greeting false ++ socks5ConnectRequest (.ipv4 1 1 1 1) 80) =
        some ⟨[5, 0, 5, 0, 0, 1, 127, 0, 0, 1, 156, 64],
          some ⟨5, [0], 1, some [1, 1, 1, 1], none, none, 80⟩⟩) :=
  ⟨rfl, rfl, by decide, by decide,
    domain_named_proxy_host (fun _ _ => true) (fun _ => none) 1080 80 1 1 1 1
      [] "1.1.1.1" rfl rfl (by decide) (by decide)⟩

/-- C5 (intent): under the spec's §4.2, a `socks4a://` dial whose
destination is already an IPv4 literal needs no remote DNS — for any
resolver, the policy yields the literal address, the request's DSTIP field
carries it with no trailing domain field, and composed with the
source-embedded `Socks4ProxyServer` the dial succeeds with `CD=90`. The
repository's own test for this scenario (`test_socks4a_ipv4`) is skipped as
"socks4a implementation currently broken when destination is not a domain
name", so this theorem documents the specified behavior, not the shipped
one. -/
theorem socks4a_ipv4_literal_spec_behavior
    (dns : String → Option (Nat × Nat × Nat × Nat)) (u : List Nat)
    (destPort : Nat) (s : List Nat) (hu : 0 ∉ u) (hport : destPort < 65536) :
    resolveDest .socks4a dns "127.0.0.1" = .ok (.ipv4 127 0 0 1) ∧
    (socks4Negotiate (remoteDnsPolicy .socks4a) u (.ipv4 127 0 0 1)
        destPort s).sent =
      [4, 1, destPort / 256, destPort % 256, 127, 0, 0, 1] ++ u ++ [0] ∧
    socks4ServerHandle u
        ((socks4Negotiate (remoteDnsPolicy .socks4a) u (.ipv4 127 0 0 1)
            destPort s).sent) =
      some ⟨[0, 90, 156, 64, 127, 0, 0, 1],
        some ⟨4, 1, some [127, 0, 0, 1], destPort, none⟩⟩ ∧
    socks4Negotiate (remoteDnsPolicy .socks4a) u (.ipv4 127 0 0 1) destPort
        [0, 90, 156, 64, 127, 0, 0, 1] =
      ⟨[4, 1, destPort / 256, destPort % 256, 127, 0, 0, 1] ++ u ++ [0],
        .ok ⟨90, [127, 0, 0, 1], 40000⟩, false⟩ := by
  have hip : parseIPv4 "127.0.0.1" = some (127, 0, 0, 1) := by decide
  refine ⟨?_, ?_, ?_, ?_⟩
  · simp [resolveDest, hip]
  · simp [socks4Negotiate, remoteDnsPolicy]
  · simp [socks4Negotiate, remoteDnsPolicy, socks4ServerHandle,
      readUntilNull_append u [] hu, Nat.div_add_mod' destPort 256]
  · simp [socks4Negotiate, remoteDnsPolicy, socks4ParseReply, isFailure]

/-- Witness for C5's intent theorem: empty user-id, port `80`. -/
theorem socks4a_ipv4_literal_spec_behavior_witness :
    (0 : Nat) ∉ ([] : List Nat) ∧ (80 : Nat) < 65536 ∧
    (resolveDest .socks4a (fun _ => none) "127.0.0.1" =
        .ok (.ipv4 127 0 0 1) ∧
      (socks4Negotiate (remoteDnsPolicy .socks4a) [] (.ipv4 127 0 0 1)
          80 []).sent =
        [4, 1, 80 / 256, 80 % 256, 127, 0, 0, 1] ++ [] ++ [0] ∧
      socks4ServerHandle []
          ((socks4Negotiate (remoteDnsPolicy .socks4a) [] (.ipv4 127 0 0 1)
              80 []).sent) =
        some ⟨[0, 90, 156, 64, 127, 0, 0, 1],
          some ⟨4, 1, some [127, 0, 0, 1], 80, none⟩⟩ ∧
      socks4Negotiate (remoteDnsPolicy .socks4a) [] (.ipv4 127 0 0 1) 80
          [0, 90, 156, 64, 127, 0, 0, 1] =
        ⟨[4, 1, 80 / 256, 80 % 256, 127, 0, 0, 1] ++ [] ++ [0],
          .ok ⟨90, [127, 0, 0, 1], 40000⟩, false⟩) :=
  ⟨by decide, by decide,
    socks4a_ipv4_literal_spec_behavior (fun _ => none) [] 80 []
      (by decide) (by decide)⟩

/-- C6 (intent): under the spec's §4.3, an IPv6 literal destination is
carried end-to-end — the CONNECT request is `ATYP=0x04` followed by the 16
address bytes, the source-embedded `Socks5ProxyServer` decodes exactly
those bytes into `ipv6_address`, and the success reply yields an open
tunnel. The repository's own test for this scenario
(`test_socks5_ipv6_destination`) is skipped as "IPv6 destination addresses
are not yet supported", so this theorem documents the specified behavior,
not the shipped one. -/
theorem socks5_ipv6_destination_spec_behavior
    (bs : List Nat) (destPort : Nat) (hlen : bs.length = 16)
    (hport : destPort < 65536) :
    atypField (.ipv6 bs) = 4 :: bs ∧
    socks5ConnectRequest (.ipv6 bs) destPort =
      [5, 1, 0, 4] ++ bs ++ [destPort / 256, destPort % 256] ∧
    socks5ServerHandle none
        (socks5Greeting false ++ socks5ConnectRequest (.ipv6 bs) destPort) =
      some ⟨[5, 0, 5, 0, 0, 1, 127, 0, 0, 1, 156, 64],
        some ⟨5, [0], 1, none, none, some bs, destPort⟩⟩ ∧
    socks5Negotiate none (.ipv6 bs) destPort
        [5, 0, 5, 0, 0, 1, 127, 0, 0, 1, 156, 64] =
      ⟨socks5Greeting false ++ socks5ConnectRequest (.ipv6 bs) destPort,
        .ok ⟨0, [127, 0, 0, 1], 40000⟩, false⟩ := by
  have h16 : recvn 16 (bs ++ [destPort / 256, destPort % 256]) =
      some (bs, [destPort / 256, destPort % 256]) := by
    rw [← hlen]
    exact recvn_append bs _
  refine ⟨rfl, ?_, ?_, ?_⟩
  · simp [socks5ConnectRequest, atypField]
  · simp [socks5ServerHandle, socks5ServerConnect, socks5Greeting,
      socks5AuthMethods, socks5ConnectRequest, atypField, h16,
      Nat.div_add_mod' destPort 256]
  · simp [socks5Negotiate, socks5Connect, socks5ReadConnectReply,
      socks5Greeting, socks5AuthMethods]

/-- Witness for C6's intent theorem: destination `::1`, port `80`. -/
theorem socks5_ipv6_destination_spec_behavior_witness :
    ([0, 0, 0, 0, 0, 0, 0, 0, 0, 0, 0, 0, 0, 0, 0, 1] : List Nat).length = 16 ∧
    (80 : Nat) < 65536 ∧
    (atypField (.ipv6 [0, 0, 0, 0, 0, 0, 0, 0, 0, 0, 0, 0, 0, 0, 0, 1]) =
        4 :: [0, 0, 0, 0, 0, 0, 0, 0, 0, 0, 0, 0, 0, 0, 0, 1] ∧
      socks5ConnectRequest
          (.ipv6 [0, 0, 0, 0, 0, 0, 0, 0, 0, 0, 0, 0, 0, 0, 0, 1]) 80 =
        [5, 1, 0, 4] ++ [0, 0, 0, 0, 0, 0, 0, 0, 0, 0, 0, 0, 0, 0, 0, 1] ++
          [80 / 256, 80 % 256] ∧
      socks5ServerHandle none
          (socks5Greeting false ++
            socks5ConnectRequest
              (.ipv6 [0, 0, 0, 0, 0, 0, 0, 0, 0, 0, 0, 0, 0, 0, 0, 1]) 80) =
        some ⟨[5, 0, 5, 0, 0, 1, 127, 0, 0, 1, 156, 64],
          some ⟨5, [0], 1, none, none,
            some [0, 0, 0, 0, 0, 0, 0, 0, 0, 0, 0, 0, 0, 0, 0, 1], 80⟩⟩ ∧
      socks5Negotiate none
          (.ipv6 [0, 0, 0, 0, 0, 0, 0, 0, 0, 0, 0, 0, 0, 0, 0, 1]) 80
          [5, 0, 5, 0, 0, 1, 127, 0, 0, 1, 156, 64] =
        ⟨socks5Greeting false ++
            socks5ConnectRequest
              (.ipv6 [0, 0, 0, 0, 0, 0, 0, 0, 0, 0, 0, 0, 0, 0, 0, 1]) 80,
          .ok ⟨0, [127, 0, 0, 1], 40000⟩, false⟩) :=
  ⟨by decide, by decide,
    socks5_ipv6_destination_spec_behavior
      [0, 0, 0, 0, 0, 0, 0, 0, 0, 0, 0, 0, 0, 0, 0, 1] 80
      (by decide) (by decide)⟩
